import Mathlib

/-!
Verification of the SCIM telemetry-ingestion backend: a shallow embedding of
`src/infrastructure/db.py`, `src/infrastructure/main.py` and
`src/infrastructure/simulator.py`, followed by theorems settling the claims
about the field-requirement validator, the two create endpoints, the database
bootstrap and the synthetic sensor generator.
-/

namespace SCIM

/-- JSON-compatible scalar values, sufficient for the payload fields the code
manipulates (Python `None`, `str`, and numbers modelled as rationals). -/
inductive JValue where
  | null : JValue
  | str : String → JValue
  | num : ℚ → JValue
deriving DecidableEq, Repr

/-- Python `dict.get`: first binding of the key in an association list,
`None` when absent. -/
def dictGet {α : Type} (d : List (String × α)) (k : String) : Option α :=
  (d.find? (fun p => p.1 = k)).map Prod.snd

/-- Key set of a readings mapping (`set(v.keys())` in the source). -/
def readingKeys {α : Type} (v : List (String × α)) : Finset String :=
  (v.map Prod.fst).toFinset

/-- The `ValueError` raised by `SensorData.validate_sensor_readings`
("Missing required fields for {device_type}: {missing_fields}"): it carries
the device type and the missing-key set. -/
structure ValidationError where
  device_type : String
  missing_fields : Finset String
deriving DecidableEq

/-- Required keys for `device_type == "road"` (db.py line 59). -/
def roadRequired : Finset String :=
  {"traffic_flow", "surface_moisture", "surface_condition"}

/-- Required keys for `device_type == "bridge"` (db.py line 61). -/
def bridgeRequired : Finset String :=
  {"structural_stress", "vibration", "weight_load"}

/-- Required keys for `device_type == "tunnel"` (db.py line 63). -/
def tunnelRequired : Finset String :=
  {"air_quality", "visibility", "ventilation_status"}

/-- Required keys for `device_type == "traffic_signal"` (db.py line 65). -/
def trafficSignalRequired : Finset String :=
  {"signal_status", "queue_length", "wait_time"}

/-- Required keys for `device_type == "streetlight"` (db.py line 67). -/
def streetlightRequired : Finset String :=
  {"light_status", "light_intensity", "power_consumption"}

/-- The `if device_type == ... / elif ... / else` chain of
`validate_sensor_readings` (db.py lines 57-69): from the value found for
`"device_type"` (if any) compute the device type's required-field set, or
`none` when the chain falls through to the `else: return v` branch.  A
non-string value compares unequal to every string literal in Python, hence
also falls through. -/
def required_fields_for (device_type : Option JValue) : Option (String × Finset String) :=
  match device_type with
  | some (JValue.str dt) =>
    if dt = "road" then some ("road", roadRequired)
    else if dt = "bridge" then some ("bridge", bridgeRequired)
    else if dt = "tunnel" then some ("tunnel", tunnelRequired)
    else if dt = "traffic_signal" then some ("traffic_signal", trafficSignalRequired)
    else if dt = "streetlight" then some ("streetlight", streetlightRequired)
    else none
  | _ => none

/-- `SensorData.validate_sensor_readings(cls, v, values)` (db.py lines 55-74):
looks up `values.get("device_type")`, resolves the required-field table,
returns `v` unchanged when no row applies or nothing is missing, and raises
a `ValueError` naming the device type and the missing keys otherwise. -/
def validate_sensor_readings (values : List (String × JValue))
    (v : List (String × JValue)) :
    Except ValidationError (List (String × JValue)) :=
  match required_fields_for (dictGet values "device_type") with
  | none => Except.ok v
  | some (dt, required_fields) =>
    let missing_fields := required_fields \ readingKeys v
    if missing_fields = ∅ then Except.ok v
    else Except.error { device_type := dt, missing_fields := missing_fields }

/-- The required-key table of spec §4.1, row by row, as pairs
(device type, required keys). -/
def requiredKeyTable : List (String × Finset String) :=
  [("road", roadRequired), ("bridge", bridgeRequired), ("tunnel", tunnelRequired),
   ("traffic_signal", trafficSignalRequired), ("streetlight", streetlightRequired)]

/-- The five device types the validator knows. -/
def knownDeviceTypes : List String :=
  ["road", "bridge", "tunnel", "traffic_signal", "streetlight"]

/-- `InfrastructureBase` (db.py lines 8-15): the scalar fields of an
infrastructure asset.  `device_id`, `device_type`, `location_lat`,
`location_lon` and `name` are required; `description` defaults to `None` and
`mdata` to the empty mapping. -/
structure InfrastructureBase where
  device_id : String
  device_type : String
  location_lat : ℚ
  location_lon : ℚ
  name : String
  description : Option String
  mdata : List (String × JValue)
deriving DecidableEq

/-- A request body for the create-infrastructure endpoint, before pydantic
validation: every field may be absent. -/
structure InfrastructurePayload where
  device_id : Option String
  device_type : Option String
  location_lat : Option ℚ
  location_lon : Option ℚ
  name : Option String
  description : Option String
  mdata : Option (List (String × JValue))
deriving DecidableEq

/-- The required scalar fields of `InfrastructureBase`: the fields declared
without a default in db.py lines 9-13. -/
def requiredScalarFields : List String :=
  ["device_id", "device_type", "location_lat", "location_lon", "name"]

/-- Pydantic validation of an `InfrastructureBase` body: succeeds exactly when
every field without a default is present, applying the declared defaults
(`description = None`, `mdata = {}`); on failure it reports the missing
required fields. -/
def infrastructureModelValidate (p : InfrastructurePayload) :
    Except (List String) InfrastructureBase :=
  match p.device_id, p.device_type, p.location_lat, p.location_lon, p.name with
  | some di, some dt, some la, some lo, some nm =>
    Except.ok { device_id := di, device_type := dt, location_lat := la,
                location_lon := lo, name := nm, description := p.description,
                mdata := p.mdata.getD [] }
  | _, _, _, _, _ =>
    Except.error <|
      (if p.device_id.isNone then ["device_id"] else []) ++
      (if p.device_type.isNone then ["device_type"] else []) ++
      (if p.location_lat.isNone then ["location_lat"] else []) ++
      (if p.location_lon.isNone then ["location_lon"] else []) ++
      (if p.name.isNone then ["name"] else [])

/-- `Infrastructure` (db.py lines 17-31): a stored asset row, with the
generated primary key `id` and the `created_at`/`updated_at` timestamps, both
of which carry `server_default CURRENT_TIMESTAMP` (the transaction timestamp
of the insert); time is modelled by a natural-number clock. -/
structure Infrastructure extends InfrastructureBase where
  id : ℕ
  created_at : ℕ
  updated_at : ℕ
deriving DecidableEq

/-- `SensorDataBase` (db.py lines 33-49): a sensor-reading body.  There is no
`device_type` field. -/
structure SensorDataBase where
  device_id : String
  timestamp : Option ℕ
  temperature : Option ℚ
  operational_status : Option String
  weather_condition : Option String
  sensor_readings : List (String × JValue)
deriving DecidableEq

/-- `SensorData` (db.py lines 51-53): a stored reading row with its generated
primary key. -/
structure SensorData extends SensorDataBase where
  id : ℕ
deriving DecidableEq

/-- The `values` dict visible to the `sensor_readings` field validator when a
`SensorDataBase` body is validated: the previously validated fields of the
model, keyed by their declared names (db.py lines 34-43).  `device_type` is
not among them. -/
def sensorDataValues (p : SensorDataBase) : List (String × JValue) :=
  [("device_id", JValue.str p.device_id),
   ("timestamp", (p.timestamp.map (fun t => JValue.num t)).getD JValue.null),
   ("temperature", (p.temperature.map JValue.num).getD JValue.null),
   ("operational_status", (p.operational_status.map JValue.str).getD JValue.null),
   ("weather_condition", (p.weather_condition.map JValue.str).getD JValue.null)]

/-- The persistent store: the two tables, the id sequences, and a clock used
for `CURRENT_TIMESTAMP`. -/
structure Store where
  infrastructure : List Infrastructure
  sensor_data : List SensorData
  next_infra_id : ℕ
  next_sensor_id : ℕ
  now : ℕ
deriving DecidableEq

/-- Errors surfaced by the create endpoints: a pydantic `ValidationError`
(from `validate_sensor_readings`), or the storage foreign-key violation on
`sensor_data.device_id → infrastructure.device_id` (db.py line 34). -/
inductive CreateError where
  | validation : ValidationError → CreateError
  | referential : String → CreateError
  | missingFields : List String → CreateError
deriving DecidableEq

/-- `create_infrastructure` (main.py lines 19-28): validate the body as an
`InfrastructureBase`, insert the row (assigning the generated id, and setting
both timestamp columns from their `CURRENT_TIMESTAMP` server default), and
return the stored representation. -/
def create_infrastructure (p : InfrastructurePayload) (s : Store) :
    Except CreateError (Infrastructure × Store) :=
  match infrastructureModelValidate p with
  | Except.error missing => Except.error (CreateError.missingFields missing)
  | Except.ok b =>
    let row : Infrastructure :=
      { toInfrastructureBase := b, id := s.next_infra_id,
        created_at := s.now, updated_at := s.now }
    Except.ok (row, { s with infrastructure := s.infrastructure ++ [row],
                             next_infra_id := s.next_infra_id + 1 })

/-- `create_sensor_data` (main.py lines 30-39): build a `SensorData` from the
body (running the `sensor_readings` field validator with the model's `values`
dict), then insert; the commit enforces the foreign key from
`SensorDataBase.device_id` to `infrastructure.device_id`, failing
referentially when no asset row has that device id. -/
def create_sensor_data (p : SensorDataBase) (s : Store) :
    Except CreateError (SensorData × Store) :=
  match validate_sensor_readings (sensorDataValues p) p.sensor_readings with
  | Except.error e => Except.error (CreateError.validation e)
  | Except.ok readings =>
    if p.device_id ∈ s.infrastructure.map (fun r => r.device_id) then
      let row : SensorData :=
        { toSensorDataBase := { p with sensor_readings := readings },
          id := s.next_sensor_id }
      Except.ok (row, { s with sensor_data := s.sensor_data ++ [row],
                               next_sensor_id := s.next_sensor_id + 1 })
    else
      Except.error (CreateError.referential p.device_id)

/-- The three TimescaleDB setup statements issued by `init_db`
(db.py lines 94-110), in structured form. -/
inductive SetupStmt where
  | createHypertable (table timeColumn : String) (ifNotExists : Bool)
      (chunkIntervalDays : ℕ)
  | createIndex (name table : String) (columns : List String)
  | createGinIndex (name table column : String)
deriving DecidableEq

/-- `SELECT create_hypertable('sensor_data', 'timestamp', if_not_exists => TRUE,
chunk_time_interval => INTERVAL '1 day')` (db.py lines 94-99). -/
def stmtHypertable : SetupStmt :=
  SetupStmt.createHypertable "sensor_data" "timestamp" true 1

/-- `CREATE INDEX IF NOT EXISTS idx_sensor_data_device_time ON sensor_data
(device_id, timestamp DESC)` (db.py lines 102-105). -/
def stmtDeviceTimeIndex : SetupStmt :=
  SetupStmt.createIndex "idx_sensor_data_device_time" "sensor_data"
    ["device_id", "timestamp DESC"]

/-- `CREATE INDEX IF NOT EXISTS idx_sensor_readings ON sensor_data USING GIN
(sensor_readings)` (db.py lines 107-110). -/
def stmtReadingsGinIndex : SetupStmt :=
  SetupStmt.createGinIndex "idx_sensor_readings" "sensor_data" "sensor_readings"

/-- Observable database events during bootstrap. -/
inductive DbEvent where
  | dropAllTables
  | createAllTables
  | execStmt (s : SetupStmt)
  | logSetupError (msg : String)
deriving DecidableEq

/-- Outcome of `init_db`: the ordered event trace and, when the `try` block
failed, the exception re-raised to the caller. -/
structure InitResult where
  trace : List DbEvent
  raised : Option String
deriving DecidableEq

/-- `init_db` (db.py lines 82-114) over an abstract connection `runStmt` that
either executes a setup statement or raises: drop all tables, recreate them,
then inside a `try` run the hypertable conversion and the two index
creations in order; on the first exception, log
"Error setting up TimescaleDB: ..." and re-raise. -/
def init_db (runStmt : SetupStmt → Except String Unit) : InitResult :=
  let pre := [DbEvent.dropAllTables, DbEvent.createAllTables]
  match runStmt stmtHypertable with
  | Except.error e => ⟨pre ++ [DbEvent.logSetupError e], some e⟩
  | Except.ok _ =>
    match runStmt stmtDeviceTimeIndex with
    | Except.error e =>
      ⟨pre ++ [DbEvent.execStmt stmtHypertable, DbEvent.logSetupError e], some e⟩
    | Except.ok _ =>
      match runStmt stmtReadingsGinIndex with
      | Except.error e =>
        ⟨pre ++ [DbEvent.execStmt stmtHypertable, DbEvent.execStmt stmtDeviceTimeIndex,
                 DbEvent.logSetupError e], some e⟩
      | Except.ok _ =>
        ⟨pre ++ [DbEvent.execStmt stmtHypertable, DbEvent.execStmt stmtDeviceTimeIndex,
                 DbEvent.execStmt stmtReadingsGinIndex], none⟩

/-- A simulated sensor's configuration (simulator.py `_initialize_sensors`):
either a numeric range with a unit, or an enumerated set of categorical
states. -/
inductive SensorConfig where
  | numeric (minVal maxVal : ℤ) (unit : Option String)
  | categorical (conditions : List String) (unit : Option String)
deriving DecidableEq

/-- `base_sensors` (simulator.py lines 32-37); the weather conditions are the
values of the `WeatherCondition` enum (lines 8-12). -/
def base_sensors : List (String × SensorConfig) :=
  [("traffic_flow", SensorConfig.numeric 0 2000 (some "vehicles/hour")),
   ("average_speed", SensorConfig.numeric 0 120 (some "km/h")),
   ("weather", SensorConfig.categorical ["clear", "rain", "snow", "fog"] none),
   ("temperature", SensorConfig.numeric (-20) 50 (some "°C"))]

/-- `infrastructure_specific_sensors` (simulator.py lines 39-75). -/
def infrastructure_specific_sensors : List (String × List (String × SensorConfig)) :=
  [("road",
    [("surface_temperature", SensorConfig.numeric (-20) 60 (some "°C")),
     ("surface_moisture", SensorConfig.numeric 0 100 (some "%")),
     ("surface_condition",
        SensorConfig.categorical ["dry", "wet", "icy", "snow_covered"] none)]),
   ("highway",
    [("surface_temperature", SensorConfig.numeric (-20) 60 (some "°C")),
     ("surface_moisture", SensorConfig.numeric 0 100 (some "%")),
     ("weight_load", SensorConfig.numeric 0 50000 (some "kg")),
     ("emergency_lane_status",
        SensorConfig.categorical ["clear", "occupied"] none)]),
   ("tunnel",
    [("air_quality", SensorConfig.numeric 0 500 (some "ppm")),
     ("visibility", SensorConfig.numeric 0 100 (some "%")),
     ("ventilation_status",
        SensorConfig.categorical ["off", "low", "medium", "high"] none),
     ("emergency_lighting", SensorConfig.categorical ["off", "on"] none)]),
   ("bridge",
    [("structural_stress", SensorConfig.numeric 0 100 (some "MPa")),
     ("vibration", SensorConfig.numeric 0 50 (some "Hz")),
     ("expansion_joint_status", SensorConfig.numeric 0 100 (some "%")),
     ("weight_load", SensorConfig.numeric 0 100000 (some "kg"))]),
   ("traffic_signal",
    [("signal_status", SensorConfig.categorical ["red", "yellow", "green"] none),
     ("queue_length", SensorConfig.numeric 0 50 (some "vehicles")),
     ("wait_time", SensorConfig.numeric 0 120 (some "seconds")),
     ("operational_status",
        SensorConfig.categorical ["normal", "flashing", "off"] none)]),
   ("streetlight",
    [("light_status", SensorConfig.categorical ["off", "on", "dimmed"] none),
     ("light_intensity", SensorConfig.numeric 0 100 (some "%")),
     ("power_consumption", SensorConfig.numeric 0 400 (some "W")),
     ("bulb_health", SensorConfig.numeric 0 100 (some "%"))])]

/-- Python dict merge `{**a, **b}`: `a`'s keys in order with `b`'s values
where overridden, then `b`'s new keys in order. -/
def pyDictUpdate {α : Type} (a b : List (String × α)) : List (String × α) :=
  a.map (fun p => match dictGet b p.1 with | some w => (p.1, w) | none => p) ++
  b.filter (fun q => (dictGet a q.1).isNone)

/-- `TransportSensorSimulator._initialize_sensors` (simulator.py lines 30-78):
`{**base_sensors, **infrastructure_specific_sensors.get(type, {})}`. -/
def _initialize_sensors (infrastructure_type : String) : List (String × SensorConfig) :=
  pyDictUpdate base_sensors
    ((dictGet infrastructure_specific_sensors infrastructure_type).getD [])

/-- The randomness consumed by one `generate_sensor_reading` call: the index
drawn by `random.choice` and the two `random.uniform` draws. -/
structure Rand where
  choiceIx : ℕ
  base : ℚ
  noise : ℚ
deriving DecidableEq

/-- A generated reading value: a rounded number or a categorical state. -/
inductive Reading where
  | num : ℚ → Reading
  | cat : String → Reading
deriving DecidableEq

/-- Python `round(x, 2)`: round to the nearest multiple of 1/100. -/
def round2 (x : ℚ) : ℚ := (round (100 * x) : ℤ) / 100

/-- `TransportSensorSimulator.generate_sensor_reading` (simulator.py lines
80-88): a categorical sensor yields `random.choice(conditions)`; a numeric
sensor yields `round(uniform(min, max) + uniform(-0.05*(max-min),
0.05*(max-min)), 2)`. -/
def generate_sensor_reading (sensor_config : SensorConfig) (r : Rand) : Reading :=
  match sensor_config with
  | SensorConfig.categorical conds _ => Reading.cat (conds.getD r.choiceIx "")
  | SensorConfig.numeric _ _ _ => Reading.num (round2 (r.base + r.noise))

/-- What `random.uniform` and `random.choice` guarantee about the randomness
fed to one reading of the given sensor configuration. -/
def uniformDraw (sensor_config : SensorConfig) (r : Rand) : Prop :=
  match sensor_config with
  | SensorConfig.numeric lo hi _ =>
    (lo : ℚ) ≤ r.base ∧ r.base ≤ (hi : ℚ) ∧
      |r.noise| ≤ 5 / 100 * ((hi : ℚ) - (lo : ℚ))
  | SensorConfig.categorical conds _ => r.choiceIx < conds.length

/-- The spec's bound on one reading: numeric values lie within
`[min - 5%·range, max + 5%·range]`; categorical values belong to the
enumerated set. -/
def readingWithinSpec (sensor_config : SensorConfig) (v : Reading) : Prop :=
  match sensor_config, v with
  | SensorConfig.numeric lo hi _, Reading.num x =>
    (lo : ℚ) - 5 / 100 * ((hi : ℚ) - (lo : ℚ)) ≤ x ∧
      x ≤ (hi : ℚ) + 5 / 100 * ((hi : ℚ) - (lo : ℚ))
  | SensorConfig.categorical conds _, Reading.cat c => c ∈ conds
  | _, _ => False

/-- `TransportSensorSimulator.generate_payload` (simulator.py lines 90-106),
restricted to the `readings` mapping: one reading per configured sensor, in
configuration order, given a randomness source per sensor name. -/
def generate_payload (infrastructure_type : String) (r : String → Rand) :
    List (String × Reading) :=
  (_initialize_sensors infrastructure_type).map
    (fun p => (p.1, generate_sensor_reading p.2 (r p.1)))

/-- Outcome of one HTTP POST in the simulator: a response with a status code,
or a raised `requests.exceptions.RequestException`. -/
inductive NetResult where
  | response (statusCode : ℕ)
  | requestException (msg : String)
deriving DecidableEq

/-- `TransportSensorSimulator.send_data` (simulator.py lines 108-123): the
POST runs inside a `try`; a `RequestException` is caught, logged and turned
into `False`; otherwise the result is `status_code == 200`. -/
def send_data (net : NetResult) : Bool :=
  match net with
  | NetResult.response statusCode => statusCode == 200
  | NetResult.requestException _ => false

/-- `TransportSensorSimulator.run` (simulator.py lines 125-142), with the
wall clock abstracted into the number of ticks the configured duration
allows: each tick calls `send_data` once on that tick's network outcome and
the loop then moves to the next tick; the list collects the per-tick send
results. -/
def runLoop (net : ℕ → NetResult) (ticks : ℕ) : List Bool :=
  (List.range ticks).map (fun i => send_data (net i))

/-- A store in which no asset has been created yet. -/
def emptyStore : Store := ⟨[], [], 1, 1, 0⟩

/-- A stored road asset `ROAD_001` (the concrete scenario of spec §8). -/
def exampleAsset : Infrastructure :=
  { device_id := "ROAD_001", device_type := "road", location_lat := 40,
    location_lon := -74, name := "Main St", description := none, mdata := [],
    id := 1, created_at := 0, updated_at := 0 }

/-- A store holding just the road asset `ROAD_001`. -/
def exampleStore : Store := ⟨[exampleAsset], [], 2, 1, 0⟩

/-- A sensor-reading body for `ROAD_001` whose readings mapping is empty, so
every key required for road devices is missing. -/
def emptyReadingsPayload : SensorDataBase :=
  { device_id := "ROAD_001", timestamp := none, temperature := none,
    operational_status := none, weather_condition := none, sensor_readings := [] }

/-- A complete create-infrastructure request body. -/
def examplePayload : InfrastructurePayload :=
  { device_id := some "ROAD_001", device_type := some "road",
    location_lat := some 40, location_lon := some (-74), name := some "Main St",
    description := none, mdata := none }

/-- A connection on which the GIN-index creation raises and the other setup
statements succeed. -/
def exampleRunStmt : SetupStmt → Except String Unit := fun s =>
  if s = stmtReadingsGinIndex then Except.error "gin failure" else Except.ok ()

/-- A network in which the POST of tick 1 raises a `RequestException` and
every other tick returns HTTP 200. -/
def exampleNet : ℕ → NetResult := fun j =>
  if j = 1 then NetResult.requestException "connection refused"
  else NetResult.response 200

/-- A readings mapping holding all road-required keys plus an extra key. -/
def exampleRoadReadings : List (String × JValue) :=
  [("traffic_flow", JValue.num 1500), ("surface_moisture", JValue.num 15),
   ("surface_condition", JValue.str "dry"), ("average_speed", JValue.num (655/10))]

lemma required_fields_for_mem {dt : String} {required : Finset String}
    (h : (dt, required) ∈ requiredKeyTable) :
    required_fields_for (some (JValue.str dt)) = some (dt, required) := by
  simp only [requiredKeyTable, List.mem_cons, List.mem_singleton, Prod.mk.injEq,
    List.not_mem_nil, or_false] at h
  rcases h with ⟨h1, h2⟩ | ⟨h1, h2⟩ | ⟨h1, h2⟩ | ⟨h1, h2⟩ | ⟨h1, h2⟩ <;>
    subst h1 <;> subst h2 <;> rfl

lemma validate_with_table {dt : String} {required : Finset String}
    (h : (dt, required) ∈ requiredKeyTable) (v : List (String × JValue)) :
    validate_sensor_readings [("device_type", JValue.str dt)] v =
      (if required \ readingKeys v = ∅ then Except.ok v
       else Except.error ⟨dt, required \ readingKeys v⟩) := by
  have hget : dictGet [("device_type", JValue.str dt)] "device_type"
      = some (JValue.str dt) := rfl
  unfold validate_sensor_readings
  rw [hget, required_fields_for_mem h]

/-- When the sensor-readings validator runs on a `SensorDataBase` body, its
`values.get("device_type")` lookup finds nothing, so it returns the readings
unchanged. -/
lemma validate_sensorDataValues (p : SensorDataBase) :
    validate_sensor_readings (sensorDataValues p) p.sensor_readings =
      Except.ok p.sensor_readings := rfl

/-- C1: For every device type in {road, bridge, tunnel, traffic_signal,
streetlight} and every readings mapping, the field-requirement validator
passes and returns the mapping unchanged iff the mapping's key set contains
every required key of that type's row of the §4.1 table (extra keys
permitted); when a required key is absent it fails with a `ValidationError`
naming the device type and exactly the set of missing keys. -/
theorem validator_requires_exactly_table_keys (dt : String) (required : Finset String)
    (h : (dt, required) ∈ requiredKeyTable) (v : List (String × JValue)) :
    (validate_sensor_readings [("device_type", JValue.str dt)] v = Except.ok v ↔
      required ⊆ readingKeys v) ∧
    (¬ required ⊆ readingKeys v →
      validate_sensor_readings [("device_type", JValue.str dt)] v =
        Except.error ⟨dt, required \ readingKeys v⟩) := by
  rw [validate_with_table h]
  constructor
  · constructor
    · intro hok
      by_contra hsub
      rw [if_neg (fun hemp => hsub (Finset.sdiff_eq_empty_iff_subset.mp hemp))] at hok
      exact Except.noConfusion hok
    · intro hsub
      rw [if_pos (Finset.sdiff_eq_empty_iff_subset.mpr hsub)]
  · intro hsub
    rw [if_neg (fun hemp => hsub (Finset.sdiff_eq_empty_iff_subset.mp hemp))]

/-- Witness for C1: for a road device, the full required key set passes, and
dropping `surface_moisture` and `surface_condition` fails naming road and
exactly those two keys. -/
theorem validator_requires_exactly_table_keys_witness :
    validate_sensor_readings [("device_type", JValue.str "road")] exampleRoadReadings =
      Except.ok exampleRoadReadings ∧
    validate_sensor_readings [("device_type", JValue.str "road")]
      [("traffic_flow", JValue.num 1500)] =
      Except.error ⟨"road", {"surface_moisture", "surface_condition"}⟩ := by
  constructor
  · exact (validator_requires_exactly_table_keys "road" roadRequired (by decide)
      exampleRoadReadings).1.mpr (by decide)
  · have h := (validator_requires_exactly_table_keys "road" roadRequired (by decide)
      [("traffic_flow", JValue.num 1500)]).2 (by decide)
    rw [h]
    have hm : roadRequired \ readingKeys [("traffic_flow", JValue.num 1500)] =
        ({"surface_moisture", "surface_condition"} : Finset String) := by decide
    rw [hm]

/-- C5: for every device type outside the required-key table, the validator
performs no validation and accepts every readings payload (including the
empty one) unchanged. -/
theorem validator_skips_unknown_types (dt : String) (hdt : dt ∉ knownDeviceTypes)
    (v : List (String × JValue)) :
    validate_sensor_readings [("device_type", JValue.str dt)] v = Except.ok v := by
  simp only [knownDeviceTypes, List.mem_cons, List.not_mem_nil, or_false, not_or] at hdt
  obtain ⟨h1, h2, h3, h4, h5⟩ := hdt
  have hreq : required_fields_for (some (JValue.str dt)) = none := by
    simp [required_fields_for, h1, h2, h3, h4, h5]
  unfold validate_sensor_readings
  have hget : dictGet [("device_type", JValue.str dt)] "device_type"
      = some (JValue.str dt) := rfl
  rw [hget, hreq]

/-- Witness for C5: the type "highway" is not in the table and the empty
readings mapping is accepted. -/
theorem validator_skips_unknown_types_witness :
    validate_sensor_readings [("device_type", JValue.str "highway")] [] =
      Except.ok [] :=
  validator_skips_unknown_types "highway" (by decide) []

/-- C3: on every payload submitted through `create_sensor_data`, the
validator's device-type lookup finds no value (`SensorDataBase` declares no
`device_type` field), so `validate_sensor_readings` takes its default branch
and returns the readings unchanged; the missing-required-keys branch is
unreachable and no payload is ever rejected for missing required keys. -/
theorem create_sensor_data_never_validation_error (p : SensorDataBase) (s : Store) :
    dictGet (sensorDataValues p) "device_type" = none ∧
    validate_sensor_readings (sensorDataValues p) p.sensor_readings =
      Except.ok p.sensor_readings ∧
    ∀ e, create_sensor_data p s ≠ Except.error (CreateError.validation e) := by
  refine ⟨rfl, validate_sensorDataValues p, ?_⟩
  intro e
  simp only [create_sensor_data, validate_sensorDataValues]
  by_cases hc : p.device_id ∈ s.infrastructure.map (fun r => r.device_id)
  · simp [hc]
  · simp [hc]

/-- C2 divergence: submitting a reading for the road asset `ROAD_001` with an
empty readings mapping succeeds — `create_sensor_data` never resolves the
asset's device type, so the required road keys are not enforced and the row
is persisted. -/
theorem create_sensor_data_accepts_missing_road_keys :
    (create_sensor_data emptyReadingsPayload exampleStore).isOk = true := rfl

/-- C4: a sensor reading whose `device_id` matches no stored asset fails with
the storage referential (foreign-key) error, whatever the rest of the payload
holds, and nothing is persisted. -/
theorem create_sensor_data_unknown_device_referential (p : SensorDataBase) (s : Store)
    (h : p.device_id ∉ s.infrastructure.map (fun r => r.device_id)) :
    create_sensor_data p s = Except.error (CreateError.referential p.device_id) := by
  simp only [create_sensor_data, validate_sensorDataValues]
  rw [if_neg h]

/-- Witness for C4: against an empty store, the example reading payload is
rejected referentially. -/
theorem create_sensor_data_unknown_device_referential_witness :
    create_sensor_data emptyReadingsPayload emptyStore =
      Except.error (CreateError.referential "ROAD_001") :=
  create_sensor_data_unknown_device_referential emptyReadingsPayload emptyStore
    (by decide)

/-- C6: `create_infrastructure` accepts a payload exactly when the required
scalar fields `device_id`, `device_type`, `location_lat`, `location_lon` and
`name` are present (rejecting payloads missing any of them); on success it
writes a new asset row and returns the stored representation round-tripping
all submitted scalar fields and metadata unchanged, with the generated id and
timestamps populated such that `updated_at` equals `created_at` on first
insert. -/
theorem create_infrastructure_roundtrip (p : InfrastructurePayload) (s : Store) :
    ((create_infrastructure p s).isOk = true ↔
      p.device_id.isSome = true ∧ p.device_type.isSome = true ∧
      p.location_lat.isSome = true ∧ p.location_lon.isSome = true ∧
      p.name.isSome = true) ∧
    (∀ row s2, create_infrastructure p s = Except.ok (row, s2) →
      some row.device_id = p.device_id ∧
      some row.device_type = p.device_type ∧
      some row.location_lat = p.location_lat ∧
      some row.location_lon = p.location_lon ∧
      some row.name = p.name ∧
      row.description = p.description ∧
      row.mdata = p.mdata.getD [] ∧
      row.id = s.next_infra_id ∧
      row.created_at = s.now ∧
      row.updated_at = row.created_at ∧
      s2.infrastructure = s.infrastructure ++ [row]) := by
  rcases p with ⟨di, dt, la, lo, nm, desc, md⟩
  cases di <;> cases dt <;> cases la <;> cases lo <;> cases nm <;>
    simp [create_infrastructure, infrastructureModelValidate, Except.isOk, Except.toBool]

/-- Witness for C6: the example payload is accepted, and the stored row has
equal timestamps on first insert. -/
theorem create_infrastructure_roundtrip_witness :
    (create_infrastructure examplePayload emptyStore).isOk = true ∧
    exampleAsset.updated_at = exampleAsset.created_at ∧
    create_infrastructure examplePayload emptyStore =
      Except.ok (exampleAsset,
        { infrastructure := [exampleAsset], sensor_data := [], next_infra_id := 2,
          next_sensor_id := 1, now := 0 }) := by
  have h := create_infrastructure_roundtrip examplePayload emptyStore
  refine ⟨h.1.mpr (by decide), ?_, rfl⟩
  exact (((((((((h.2 exampleAsset
    { infrastructure := [exampleAsset], sensor_data := [], next_infra_id := 2,
      next_sensor_id := 1, now := 0 } rfl).2).2).2).2).2).2).2).2).2.1

/-- C7: `init_db` first drops all existing tables, then recreates them, then
converts `sensor_data` into a hypertable with a 1-day chunk interval and
creates the composite (device_id, timestamp DESC) index and the GIN index
over the readings column, in that order; any failure in the
hypertable/index step is logged and re-raised to the caller. -/
theorem init_db_bootstrap (runStmt : SetupStmt → Except String Unit) :
    stmtHypertable = SetupStmt.createHypertable "sensor_data" "timestamp" true 1 ∧
    stmtDeviceTimeIndex = SetupStmt.createIndex "idx_sensor_data_device_time"
      "sensor_data" ["device_id", "timestamp DESC"] ∧
    stmtReadingsGinIndex =
      SetupStmt.createGinIndex "idx_sensor_readings" "sensor_data" "sensor_readings" ∧
    (init_db runStmt).trace.take 2 =
      [DbEvent.dropAllTables, DbEvent.createAllTables] ∧
    ((init_db runStmt).raised = none ↔
      runStmt stmtHypertable = Except.ok () ∧
      runStmt stmtDeviceTimeIndex = Except.ok () ∧
      runStmt stmtReadingsGinIndex = Except.ok ()) ∧
    ((init_db runStmt).raised = none →
      (init_db runStmt).trace =
        [DbEvent.dropAllTables, DbEvent.createAllTables,
         DbEvent.execStmt stmtHypertable, DbEvent.execStmt stmtDeviceTimeIndex,
         DbEvent.execStmt stmtReadingsGinIndex]) ∧
    (∀ e, (init_db runStmt).raised = some e →
      DbEvent.logSetupError e ∈ (init_db runStmt).trace) := by
  refine ⟨rfl, rfl, rfl, ?_⟩
  cases h1 : runStmt stmtHypertable with
  | error e1 => simp [init_db, h1]
  | ok u1 =>
    cases h2 : runStmt stmtDeviceTimeIndex with
    | error e2 => simp [init_db, h1, h2]
    | ok u2 =>
      cases h3 : runStmt stmtReadingsGinIndex with
      | error e3 => simp [init_db, h1, h2, h3]
      | ok u3 => simp [init_db, h1, h2, h3]

/-- Witness for C7: on a connection whose GIN-index creation raises, `init_db`
re-raises that error and its trace records the logged setup error. -/
theorem init_db_bootstrap_witness :
    (init_db exampleRunStmt).raised = some "gin failure" ∧
    DbEvent.logSetupError "gin failure" ∈ (init_db exampleRunStmt).trace := by
  have h := init_db_bootstrap exampleRunStmt
  exact ⟨by decide, h.2.2.2.2.2.2 "gin failure" (by decide)⟩

/-- Rounding to two decimals does not fall below a bound that is itself a
multiple of 1/100. -/
lemma le_round2 {m : ℤ} {x : ℚ} (h : (m : ℚ) / 100 ≤ x) : (m : ℚ) / 100 ≤ round2 x := by
  unfold round2
  have h2 : m ≤ round ((100 : ℚ) * x) := by
    rw [round_eq, Int.le_floor]
    linarith
  have h3 : (m : ℚ) ≤ ((round ((100 : ℚ) * x) : ℤ) : ℚ) := by exact_mod_cast h2
  linarith

/-- Rounding to two decimals does not exceed a bound that is itself a
multiple of 1/100. -/
lemma round2_le {m : ℤ} {x : ℚ} (h : x ≤ (m : ℚ) / 100) : round2 x ≤ (m : ℚ) / 100 := by
  unfold round2
  have h2 : round ((100 : ℚ) * x) ≤ m := by
    have hlt : round ((100 : ℚ) * x) < m + 1 := by
      rw [round_eq, Int.floor_lt]
      push_cast
      linarith
    omega
  have h3 : ((round ((100 : ℚ) * x) : ℤ) : ℚ) ≤ (m : ℚ) := by exact_mod_cast h2
  linarith

/-- C8: a numeric sensor reading is a uniform draw over [min, max] plus
jitter of at most ±5% of the range, rounded to two decimals, hence lies in
[min − 5%·range, max + 5%·range]; a categorical reading is a member of the
configured enumerated set. -/
theorem generate_sensor_reading_within_spec (sensor_config : SensorConfig) (r : Rand)
    (h : uniformDraw sensor_config r) :
    readingWithinSpec sensor_config (generate_sensor_reading sensor_config r) := by
  cases sensor_config with
  | categorical conds u =>
    simp only [uniformDraw] at h
    simp only [generate_sensor_reading, readingWithinSpec]
    have hget : conds.getD r.choiceIx "" = conds.get ⟨r.choiceIx, h⟩ := by
      simp [List.getD, List.getElem?_eq_getElem h]
    rw [hget]
    exact conds.get_mem r.choiceIx h
  | numeric lo hi u =>
    obtain ⟨hb1, hb2, hn⟩ := h
    rw [abs_le] at hn
    simp only [generate_sensor_reading, readingWithinSpec]
    constructor
    · have hlb : ((100 * lo - 5 * (hi - lo) : ℤ) : ℚ) / 100 ≤ r.base + r.noise := by
        push_cast
        linarith
      have := le_round2 hlb
      have hb : ((100 * lo - 5 * (hi - lo) : ℤ) : ℚ) / 100 =
          (lo : ℚ) - 5 / 100 * ((hi : ℚ) - (lo : ℚ)) := by
        push_cast
        ring
      linarith [hb ▸ this]
    · have hub : r.base + r.noise ≤ ((100 * hi + 5 * (hi - lo) : ℤ) : ℚ) / 100 := by
        push_cast
        linarith
      have := round2_le hub
      have hb : ((100 * hi + 5 * (hi - lo) : ℤ) : ℚ) / 100 =
          (hi : ℚ) + 5 / 100 * ((hi : ℚ) - (lo : ℚ)) := by
        push_cast
        ring
      linarith [hb ▸ this]

/-- Witness for C8: a concrete draw for the bridge `vibration` sensor
(range 0-50) and a concrete pick for the road `surface_condition` sensor both
satisfy the spec bound. -/
theorem generate_sensor_reading_within_spec_witness :
    readingWithinSpec (SensorConfig.numeric 0 50 (some "Hz"))
      (generate_sensor_reading (SensorConfig.numeric 0 50 (some "Hz")) ⟨0, 49, 2⟩) ∧
    readingWithinSpec
      (SensorConfig.categorical ["dry", "wet", "icy", "snow_covered"] none)
      (generate_sensor_reading
        (SensorConfig.categorical ["dry", "wet", "icy", "snow_covered"] none)
        ⟨2, 0, 0⟩) := by
  constructor
  · exact generate_sensor_reading_within_spec (SensorConfig.numeric 0 50 (some "Hz"))
      ⟨0, 49, 2⟩ (by norm_num [uniformDraw])
  · exact generate_sensor_reading_within_spec
      (SensorConfig.categorical ["dry", "wet", "icy", "snow_covered"] none)
      ⟨2, 0, 0⟩ (by norm_num [uniformDraw])

/-- C9: each tick of the simulator loop performs exactly one send; a tick
whose POST raises a `RequestException` is caught and yields `False` rather
than propagating, and the loop still runs all remaining ticks. -/
theorem run_loop_survives_network_failure (net : ℕ → NetResult) (n i : ℕ)
    (hi : i < n) (m : String) (hfail : net i = NetResult.requestException m) :
    (runLoop net n).length = n ∧
    (runLoop net n)[i]? = some (send_data (net i)) ∧
    (runLoop net n)[i]? = some false := by
  refine ⟨by simp [runLoop], ?_, ?_⟩
  · simp [runLoop, List.getElem?_map, List.getElem?_range hi]
  · simp [runLoop, List.getElem?_map, List.getElem?_range hi, hfail, send_data]

/-- Witness for C9: with a network failing only at tick 1, a 3-tick run still
performs 3 sends and tick 1 just reports failure. -/
theorem run_loop_survives_network_failure_witness :
    (runLoop exampleNet 3).length = 3 ∧
    (runLoop exampleNet 3)[1]? = some (send_data (exampleNet 1)) ∧
    (runLoop exampleNet 3)[1]? = some false :=
  run_loop_survives_network_failure exampleNet 3 1 (by decide)
    "connection refused" (by decide)

/-- The keys of a generated payload are the keys of the configured sensors,
whatever randomness is drawn. -/
lemma generate_payload_keys (infrastructure_type : String) (r : String → Rand) :
    readingKeys (generate_payload infrastructure_type r) =
      readingKeys (_initialize_sensors infrastructure_type) := by
  unfold readingKeys generate_payload
  rw [List.map_map]
  rfl

/-- C10: for each device type in the validator's table, the key set of the
simulator's configured sensors for that type (base sensors merged with the
type-specific sensors) is a superset of the validator's required key set, so
every generated payload's readings mapping contains all keys the validator
requires for its type. -/
theorem simulator_covers_required_keys (dt : String) (required : Finset String)
    (h : (dt, required) ∈ requiredKeyTable) (r : String → Rand) :
    required ⊆ readingKeys (generate_payload dt r) := by
  rw [generate_payload_keys]
  simp only [requiredKeyTable, List.mem_cons, List.mem_singleton, Prod.mk.injEq,
    List.not_mem_nil, or_false] at h
  rcases h with ⟨h1, h2⟩ | ⟨h1, h2⟩ | ⟨h1, h2⟩ | ⟨h1, h2⟩ | ⟨h1, h2⟩ <;>
    subst h1 <;> subst h2 <;> decide

/-- Witness for C10: the road payload's readings keys include all road
required keys. -/
theorem simulator_covers_required_keys_witness :
    roadRequired ⊆ readingKeys (generate_payload "road" (fun _ => ⟨0, 0, 0⟩)) :=
  simulator_covers_required_keys "road" roadRequired (by decide) (fun _ => ⟨0, 0, 0⟩)

end SCIM
